import Mathlib

/-!
Shallow embedding of the recipe-management API (`src/app/recipe/views.py`
together with the behavior of the generic viewset machinery it configures),
and proofs about the claims of the specification.

Data model (spec §3, `core.models`): Tag and Ingredient are structurally
identical user-owned attributes (`{id, name, owner}`), handled by one base
viewset in the source (`BaseRecipeAttrViewSet`), so they are embedded by a
single structure `RecipeAttr` used for both the tag list and the ingredient
list of the store. Recipes carry title, time_minutes, price, owner, id lists
of associated tags/ingredients and an optional image reference.
-/

structure RecipeAttr where
  id : Nat
  name : String
  user : Nat
  deriving DecidableEq, Repr

structure Recipe where
  id : Nat
  title : String
  time_minutes : Nat
  price : Int
  user : Nat
  tags : List Nat
  ingredients : List Nat
  image : Option String
  deriving DecidableEq, Repr

/-- The persistent store: three per-user-scoped tables. -/
structure DB where
  tags : List RecipeAttr
  ingredients : List RecipeAttr
  recipes : List Recipe
  deriving DecidableEq, Repr

/-- Error taxonomy of the API surface (spec §7): `unauthorized` is the
401-equivalent, `notFound` the 404-equivalent, `forbidden` the
403-equivalent (never produced by this code, but present so that
"NotFound rather than Forbidden" is expressible), `validationError` the
400-equivalent. -/
inductive ApiError where
  | unauthorized
  | notFound
  | forbidden
  | validationError
  deriving DecidableEq, Repr

/-- Executable lexicographic comparison on character lists; agrees with the
standard order on `String` via `nameLe_iff`. -/
def charListLe : List Char → List Char → Bool
  | [], _ => true
  | _ :: _, [] => false
  | a :: as, b :: bs =>
      if a < b then true
      else if b < a then false
      else charListLe as bs

/-- Executable string comparison used by the embedding of `order_by('-name')`. -/
def nameLe (a b : String) : Bool := charListLe a.data b.data

/-- The ordering `order_by('-name')` establishes between adjacent rows:
the later row's name is `≤` the earlier row's name. -/
def nameDescRel (a b : RecipeAttr) : Prop := nameLe b.name a.name = true

instance : DecidableRel nameDescRel := fun _ _ => instDecidableEqBool _ _

/-- `BaseRecipeAttrViewSet.get_queryset` (views.py:17-19):
`self.queryset.filter(user=self.request.user).order_by('-name')`.
The owner filter followed by a sort on `name` descending. -/
def attrQueryset (xs : List RecipeAttr) (u : Nat) : List RecipeAttr :=
  List.insertionSort nameDescRel (xs.filter (fun t => t.user == u))

/-- `RecipeViewSet.get_queryset` (views.py:45-47):
`self.queryset.filter(user=self.request.user)` — owner filter only, no
ordering and no reading of any query parameter. -/
def recipeGetQueryset (db : DB) (u : Nat) : List Recipe :=
  db.recipes.filter (fun r => r.user == u)

/-- The generic detail-route object lookup used by retrieve/update/destroy:
the primary-key lookup is performed inside `get_queryset()`, so a row owned
by another user is indistinguishable from an absent row (`none` = NotFound). -/
def recipeGetObject (db : DB) (u : Nat) (i : Nat) : Option Recipe :=
  (recipeGetQueryset db u).find? (fun r => r.id == i)

/-- The "empty after trimming" validation test of spec §4.1: a string trims
to the empty string exactly when every character is whitespace. -/
def blank (s : String) : Bool := s.data.all (fun c => c.isWhitespace)

/-- Payload of a Tag/Ingredient create request. The `user` field models an
owner value a client may try to smuggle into the payload. -/
structure AttrPayload where
  name : String
  user : Option Nat
  deriving DecidableEq, Repr

/-- Auto-increment primary key of the store. -/
def nextId (ids : List Nat) : Nat :=
  ids.foldr max 0 + 1

/-- `serializer.save(user=...)` for Tag/Ingredient creation. Keyword
arguments to `save` override any validated payload field, so a `some`
save-time owner always wins over the payload's `user`. Name validation
(non-empty after trimming, spec §4.1) guards the save. -/
def attrSerializerSave (xs : List RecipeAttr) (p : AttrPayload) (saveUser : Option Nat) :
    List RecipeAttr × Except ApiError RecipeAttr :=
  if blank p.name then (xs, .error .validationError)
  else
    let owner := match saveUser with
      | some u => u
      | none => p.user.getD 0
    let row : RecipeAttr := { id := nextId (xs.map (·.id)), name := p.name, user := owner }
    (xs ++ [row], .ok row)

/-- `BaseRecipeAttrViewSet.perform_create` (views.py:21-23):
`serializer.save(user=self.request.user)`. -/
def performCreate (xs : List RecipeAttr) (uid : Nat) (p : AttrPayload) :
    List RecipeAttr × Except ApiError RecipeAttr :=
  attrSerializerSave xs p (some uid)

/-- Payload of a Recipe create/update request; `none` means the field is
absent from the payload. -/
structure RecipePayload where
  title : Option String
  time_minutes : Option Nat
  price : Option Int
  tags : Option (List Nat)
  ingredients : Option (List Nat)
  deriving DecidableEq, Repr

/-- Modelled from the spec: `recipe/serializers.py` (the `RecipeSerializer`
update path) is not under src/, only its tests are. Spec §4.2: "On full
update, associations not present in the payload are cleared (replace
semantics). On partial update, only fields present in the payload are
touched; associations absent from a partial payload remain unchanged;
associations present are fully replaced (not merged)." A full update
additionally requires the scalar required fields (§3: title, time_minutes,
price) to be present, with a non-empty trimmed title (§4.1). -/
def serializerUpdate (r : Recipe) (p : RecipePayload) (patch : Bool) : Except ApiError Recipe :=
  if patch then
    match p.title with
    | some t =>
        if blank t then .error .validationError
        else .ok { r with title := t,
                          time_minutes := p.time_minutes.getD r.time_minutes,
                          price := p.price.getD r.price,
                          tags := p.tags.getD r.tags,
                          ingredients := p.ingredients.getD r.ingredients }
    | none =>
        .ok { r with time_minutes := p.time_minutes.getD r.time_minutes,
                     price := p.price.getD r.price,
                     tags := p.tags.getD r.tags,
                     ingredients := p.ingredients.getD r.ingredients }
  else
    match p.title, p.time_minutes, p.price with
    | some t, some tm, some pr =>
        if blank t then .error .validationError
        else .ok { r with title := t, time_minutes := tm, price := pr,
                          tags := p.tags.getD [],
                          ingredients := p.ingredients.getD [] }
    | _, _, _ => .error .validationError

/-- Recipe creation (`CreateModelMixin` + the serializer): required title,
time_minutes and price; optional tag/ingredient id lists; the owner is the
requesting user; the image starts unset. -/
def recipeCreateImpl (db : DB) (uid : Nat) (p : RecipePayload) :
    DB × Except ApiError Recipe :=
  match p.title, p.time_minutes, p.price with
  | some t, some tm, some pr =>
      if blank t then (db, .error .validationError)
      else
        let r : Recipe := { id := nextId (db.recipes.map (·.id)), title := t,
                            time_minutes := tm, price := pr, user := uid,
                            tags := p.tags.getD [], ingredients := p.ingredients.getD [],
                            image := none }
        ({ db with recipes := db.recipes ++ [r] }, .ok r)
  | _, _, _ => (db, .error .validationError)

/-- The requests of the API surface routed to the two viewsets. Tag and
Ingredient expose only list and create (their viewsets mix in only
`ListModelMixin` and `CreateModelMixin`, views.py:10-12); Recipe exposes the
full `ModelViewSet` set. List requests carry the query parameters the spec
talks about (`assigned_only`, comma-separated `tags`/`ingredients` id
strings); `patch := true` on an update is PATCH, `false` is PUT. -/
inductive Req where
  | tagList (assigned_only : Option String)
  | tagCreate (p : AttrPayload)
  | ingredientList (assigned_only : Option String)
  | ingredientCreate (p : AttrPayload)
  | recipeList (tags : Option String) (ingredients : Option String)
  | recipeCreate (p : RecipePayload)
  | recipeRetrieve (i : Nat)
  | recipeUpdate (i : Nat) (p : RecipePayload) (patch : Bool)
  | recipeDestroy (i : Nat)
  deriving DecidableEq, Repr

/-- Successful response bodies. -/
inductive Resp where
  | attrList (xs : List RecipeAttr)
  | attrRow (x : RecipeAttr)
  | recipeList (xs : List Recipe)
  | recipeDetail (r : Recipe)
  | recipeRow (r : Recipe)
  | deleted
  deriving DecidableEq, Repr

/-- The authenticated handlers, one per routed action, exactly as views.py
wires them: every list handler answers with its `get_queryset()` result and
reads no query parameter (the filter parameters of both list actions are
ignored — views.py:17-19 and 45-47 consult only `request.user`); the detail
routes look the object up through `recipeGetObject` and answer NotFound when
it is absent; update answers with the serializer selected for the update
action, destroy removes the row. -/
def handle (db : DB) (uid : Nat) : Req → DB × Except ApiError Resp
  | .tagList _ => (db, .ok (.attrList (attrQueryset db.tags uid)))
  | .tagCreate p =>
      let res := performCreate db.tags uid p
      ({ db with tags := res.1 }, res.2.map .attrRow)
  | .ingredientList _ => (db, .ok (.attrList (attrQueryset db.ingredients uid)))
  | .ingredientCreate p =>
      let res := performCreate db.ingredients uid p
      ({ db with ingredients := res.1 }, res.2.map .attrRow)
  | .recipeList _ _ => (db, .ok (.recipeList (recipeGetQueryset db uid)))
  | .recipeCreate p =>
      let res := recipeCreateImpl db uid p
      (res.1, res.2.map .recipeRow)
  | .recipeRetrieve i =>
      match recipeGetObject db uid i with
      | none => (db, .error .notFound)
      | some r => (db, .ok (.recipeDetail r))
  | .recipeUpdate i p patch =>
      match recipeGetObject db uid i with
      | none => (db, .error .notFound)
      | some r =>
          match serializerUpdate r p patch with
          | .error e => (db, .error e)
          | .ok r2 =>
              ({ db with recipes := db.recipes.map (fun x => if x.id == i then r2 else x) },
               .ok (.recipeRow r2))
  | .recipeDestroy i =>
      match recipeGetObject db uid i with
      | none => (db, .error .notFound)
      | some _ => ({ db with recipes := db.recipes.filter (fun x => x.id != i) }, .ok .deleted)

/-- Request dispatch. Both viewsets declare
`authentication_classes = (TokenAuthentication,)` and
`permission_classes = (IsAuthenticated,)` (views.py:14-15 and 42-43); the
framework evaluates these before invoking any handler, so an
unauthenticated request (`u = none`) is rejected with the 401-equivalent
before the store is touched. -/
def dispatch (db : DB) (u : Option Nat) (req : Req) : DB × Except ApiError Resp :=
  match u with
  | none => (db, .error .unauthorized)
  | some uid => handle db uid req

/-- The actions `viewsets.ModelViewSet` provides out of the box. -/
def modelViewSetActions : List String :=
  ["list", "create", "retrieve", "update", "partial_update", "destroy"]

/-- Extra actions declared on `RecipeViewSet` with an `@action` decorator:
views.py:38-54 declares none. -/
def recipeViewSetExtraActions : List String := []

/-- All actions routed for `RecipeViewSet`. -/
def recipeViewSetActions : List String :=
  modelViewSetActions ++ recipeViewSetExtraActions

/-- The reverse-route names the default router generates for the recipe
viewset: `recipe-list`, `recipe-detail`, plus `recipe-<url_name>` for each
extra `@action`. -/
def recipeRouteNames : List String :=
  ["recipe-list", "recipe-detail"] ++ recipeViewSetExtraActions.map (fun a => "recipe-" ++ a)

/-- The two serializer classes `RecipeViewSet` can answer with. -/
inductive SerializerClass where
  | recipeSerializer
  | recipeDetailSerializer
  deriving DecidableEq, Repr

/-- `RecipeViewSet.get_serializer_class` (views.py:49-54): the detail
serializer for the `retrieve` action only, the plain `RecipeSerializer`
for every other action. -/
def get_serializer_class (action : String) : SerializerClass :=
  if action = "retrieve" then .recipeDetailSerializer else .recipeSerializer

/-- How a serializer class renders the tag/ingredient associations of a
recipe. -/
inductive RecipeShape where
  | idListShape
  | nestedDetailShape
  deriving DecidableEq, Repr

/-- Modelled from the spec: `recipe/serializers.py` is not under src/.
Spec §4.4: the list representation (`RecipeSerializer`) carries
tag/ingredient as id lists; the detail representation
(`RecipeDetailSerializer`) carries them as fully expanded nested objects. -/
def serializerShape : SerializerClass → RecipeShape
  | .recipeSerializer => .idListShape
  | .recipeDetailSerializer => .nestedDetailShape

deriving instance DecidableEq for Except

/-! ### Concrete stores used by witnesses and counterexamples.
They mirror the fixtures of the repository's own test files. -/

/-- Fixture of `test_tags_limited_to_user` / `test_ingredients_limited_to_user`
and the recipe detail tests: users 1 and 2, each owning one tag, one
ingredient and one recipe. -/
def sampleDB : DB :=
  { tags := [⟨1, "Vegan", 1⟩, ⟨2, "Fruits", 2⟩],
    ingredients := [⟨1, "Cream", 1⟩, ⟨2, "Cheese", 2⟩],
    recipes := [⟨1, "Sample recipe", 10, 5, 1, [1], [1], none⟩,
                ⟨2, "Other recipe", 10, 5, 2, [], [], none⟩] }

/-- Fixture of `test_retrieve_tags_assigned_to_recipes` and
`test_retrieve_ingredients_assigned_to_recipes`: user 1 owns two tags and two
ingredients, of which only the first of each is linked to the single
recipe. -/
def assignedDB : DB :=
  { tags := [⟨1, "Breakfast", 1⟩, ⟨2, "Lunch", 1⟩],
    ingredients := [⟨1, "Apple", 1⟩, ⟨2, "Banana", 1⟩],
    recipes := [⟨1, "some title", 10, 5, 1, [1], [1], none⟩] }

/-- Fixture of `test_filter_recipes_by_tag` /
`test_filtering_recipes_by_ingredients`: user 1 owns three recipes; recipe 1
carries tag 4 and ingredient 6, recipe 2 carries tag 5 and ingredient 7,
recipe 3 carries no associations at all. -/
def filterDB : DB :=
  { tags := [⟨4, "vegetarian", 1⟩, ⟨5, "vegan", 1⟩],
    ingredients := [⟨6, "salt", 1⟩, ⟨7, "pepper", 1⟩],
    recipes := [⟨1, "recipe1", 10, 5, 1, [4], [6], none⟩,
                ⟨2, "recipe2", 10, 5, 1, [5], [7], none⟩,
                ⟨3, "recipe3", 10, 5, 1, [], [], none⟩] }

/-! ### Order bridge: the executable comparison agrees with the standard
string order. -/

lemma charListLe_iff_not_lex : ∀ x y : List Char,
    charListLe x y = true ↔ ¬ List.Lex (· < ·) y x := by
  intro x
  induction x with
  | nil =>
      intro y
      simp only [charListLe]
      constructor
      · intro _ h
        cases h
      · intro _
        trivial
  | cons a as ih =>
      intro y
      cases y with
      | nil =>
          simp only [charListLe]
          constructor
          · intro h
            cases h
          · intro h
            exact absurd List.Lex.nil h
      | cons b bs =>
          simp only [charListLe]
          by_cases hab : a < b
          · simp only [hab, if_pos]
            constructor
            · intro _ h
              cases h with
              | cons h1 => exact absurd hab (lt_irrefl _)
              | rel h1 => exact absurd hab (lt_asymm h1)
            · intro _
              trivial
          · by_cases hba : b < a
            · simp only [hab, hba, if_neg, if_pos, not_false_iff]
              constructor
              · intro h
                cases h
              · intro h
                exact absurd (List.Lex.rel hba) h
            · simp only [hab, hba, if_neg, not_false_iff]
              rw [ih bs]
              have hEq : b = a := le_antisymm (not_lt.mp hab) (not_lt.mp hba)
              subst hEq
              constructor
              · intro h hlt
                cases hlt with
                | cons h1 => exact h h1
                | rel h1 => exact absurd h1 (lt_irrefl _)
              · intro h hlt
                exact h (List.Lex.cons hlt)

lemma nameLe_iff (a b : String) : nameLe a b = true ↔ a ≤ b := by
  rw [← not_lt, String.lt_iff_toList_lt]
  exact charListLe_iff_not_lex a.data b.data

instance : IsTotal RecipeAttr nameDescRel where
  total a b := by
    rcases le_total b.name a.name with h | h
    · exact Or.inl ((nameLe_iff _ _).mpr h)
    · exact Or.inr ((nameLe_iff _ _).mpr h)

instance : IsTrans RecipeAttr nameDescRel where
  trans _ _ _ hab hbc :=
    (nameLe_iff _ _).mpr (le_trans ((nameLe_iff _ _).mp hbc) ((nameLe_iff _ _).mp hab))

/-! ### Queryset lemmas. -/

lemma attrQueryset_sorted (xs : List RecipeAttr) (u : Nat) :
    List.Pairwise (fun a b => b.name ≤ a.name) (attrQueryset xs u) :=
  (List.sorted_insertionSort nameDescRel (xs.filter (fun t => t.user == u))).imp
    (fun hr => (nameLe_iff _ _).mp hr)

lemma attrQueryset_mem (xs : List RecipeAttr) (u : Nat) (a : RecipeAttr) :
    a ∈ attrQueryset xs u ↔ a ∈ xs ∧ a.user = u := by
  rw [attrQueryset, (List.perm_insertionSort nameDescRel _).mem_iff, List.mem_filter]
  simp [beq_iff_eq]

lemma recipeGetQueryset_mem (db : DB) (u : Nat) (r : Recipe) :
    r ∈ recipeGetQueryset db u ↔ r ∈ db.recipes ∧ r.user = u := by
  rw [recipeGetQueryset, List.mem_filter]
  simp [beq_iff_eq]

/-- In a store with pairwise-distinct recipe ids, two member rows with the
same id are the same row. -/
lemma recipe_eq_of_mem_of_id_eq {l : List Recipe}
    (hids : l.Pairwise (fun a b => a.id ≠ b.id)) :
    ∀ {r r' : Recipe}, r ∈ l → r' ∈ l → r.id = r'.id → r = r' := by
  induction l with
  | nil =>
      intro r r' hr _ _
      cases hr
  | cons x xs ih =>
      intro r r' hr hr' hid
      rcases List.pairwise_cons.mp hids with ⟨hx, hxs⟩
      rcases List.mem_cons.mp hr with h1 | h1
      · rcases List.mem_cons.mp hr' with h2 | h2
        · exact h1.trans h2.symm
        · exact absurd (h1 ▸ hid) (hx r' h2)
      · rcases List.mem_cons.mp hr' with h2 | h2
        · exact absurd (h2 ▸ hid).symm (hx r h1)
        · exact ih hxs h1 h2 hid

/-- The detail-route lookup of a recipe owned by a different user fails:
the pk is resolved inside the owner-filtered queryset. -/
lemma recipeGetObject_cross_user_none (db : DB) {u1 u2 : Nat} (hne : u1 ≠ u2)
    (hids : db.recipes.Pairwise (fun a b => a.id ≠ b.id))
    {r : Recipe} (hr : r ∈ db.recipes) (hu : r.user = u1) :
    recipeGetObject db u2 r.id = none := by
  cases hfind : recipeGetObject db u2 r.id with
  | none => rfl
  | some r' =>
      exfalso
      have hfind' : List.find? (fun x => x.id == r.id) (recipeGetQueryset db u2) = some r' :=
        hfind
      have hmem : r' ∈ recipeGetQueryset db u2 := List.mem_of_find?_eq_some hfind'
      have hp := List.find?_some hfind'
      simp only [beq_iff_eq] at hp
      have hid : r'.id = r.id := hp
      rcases (recipeGetQueryset_mem db u2 r').mp hmem with ⟨hmem', hu2⟩
      have : r' = r := recipe_eq_of_mem_of_id_eq hids hmem' hr hid
      subst this
      exact hne (hu ▸ hu2.symm ▸ rfl)

/-! ### Claims. -/

/-- Claim C1: for every pair of distinct users U1 ≠ U2 (over any store whose
recipe ids are pairwise distinct, as primary keys are), a Tag, Ingredient or
Recipe row owned by U1 never appears in U2's list results, and retrieving,
updating or deleting U1's recipe by id as U2 answers NotFound — never the
row and never Forbidden — leaving the store unchanged. -/
theorem c1_ownership_isolation (db : DB) (u1 u2 : Nat) (hne : u1 ≠ u2)
    (hids : db.recipes.Pairwise (fun a b => a.id ≠ b.id)) :
    (∀ t ∈ db.tags, t.user = u1 → t ∉ attrQueryset db.tags u2) ∧
    (∀ i ∈ db.ingredients, i.user = u1 → i ∉ attrQueryset db.ingredients u2) ∧
    (∀ r ∈ db.recipes, r.user = u1 → r ∉ recipeGetQueryset db u2) ∧
    (∀ r ∈ db.recipes, r.user = u1 →
      handle db u2 (.recipeRetrieve r.id) = (db, .error .notFound) ∧
      (∀ p patch, handle db u2 (.recipeUpdate r.id p patch) = (db, .error .notFound)) ∧
      handle db u2 (.recipeDestroy r.id) = (db, .error .notFound)) := by
  refine ⟨?_, ?_, ?_, ?_⟩
  · intro t _ hu hmem
    rcases (attrQueryset_mem db.tags u2 t).mp hmem with ⟨_, hu2⟩
    exact hne (hu.symm.trans hu2)
  · intro i _ hu hmem
    rcases (attrQueryset_mem db.ingredients u2 i).mp hmem with ⟨_, hu2⟩
    exact hne (hu.symm.trans hu2)
  · intro r _ hu hmem
    rcases (recipeGetQueryset_mem db u2 r).mp hmem with ⟨_, hu2⟩
    exact hne (hu.symm.trans hu2)
  · intro r hr hu
    have hnone := recipeGetObject_cross_user_none db hne hids hr hu
    refine ⟨?_, ?_, ?_⟩
    · simp [handle, hnone]
    · intro p patch
      simp [handle, hnone]
    · simp [handle, hnone]

/-- Witness for C1 on the fixture store: users 1 and 2 are distinct, recipe
ids are distinct, user 1's tag is invisible to user 2's tag list, and user
2's retrieve of user 1's recipe answers NotFound. -/
theorem c1_witness :
    ((1 : Nat) ≠ 2) ∧
    sampleDB.recipes.Pairwise (fun a b => a.id ≠ b.id) ∧
    ((⟨1, "Vegan", 1⟩ : RecipeAttr) ∉ attrQueryset sampleDB.tags 2) ∧
    handle sampleDB 2 (.recipeRetrieve 1) = (sampleDB, .error .notFound) := by
  have h := c1_ownership_isolation sampleDB 1 2 (by decide) (by decide)
  refine ⟨by decide, by decide, ?_, ?_⟩
  · exact h.1 ⟨1, "Vegan", 1⟩ (by decide) (by decide)
  · exact (h.2.2.2 ⟨1, "Sample recipe", 10, 5, 1, [1], [1], none⟩ (by decide) (by decide)).1

/-- Claim C7: every request of every operation on every resource is rejected
with the 401-equivalent when it carries no authenticated identity, before
any handler runs, and the store is returned unchanged. -/
theorem c7_unauthenticated_rejected_before_store (db : DB) (req : Req) :
    dispatch db none req = (db, .error .unauthorized) := rfl

/-- Claim C9: the Tag and Ingredient list endpoints answer exactly with
`get_queryset()`, whose result is ordered by name descending and contains
exactly the caller's rows. -/
theorem c9_attr_lists_name_descending (db : DB) (u : Nat) (q : Option String) :
    dispatch db (some u) (.tagList q) = (db, .ok (.attrList (attrQueryset db.tags u))) ∧
    dispatch db (some u) (.ingredientList q) =
      (db, .ok (.attrList (attrQueryset db.ingredients u))) ∧
    (∀ xs : List RecipeAttr,
      List.Pairwise (fun a b => b.name ≤ a.name) (attrQueryset xs u) ∧
      (∀ a, a ∈ attrQueryset xs u ↔ a ∈ xs ∧ a.user = u)) :=
  ⟨rfl, rfl, fun xs => ⟨attrQueryset_sorted xs u, fun a => attrQueryset_mem xs u a⟩⟩

/-- Witness for C9 on the fixture store: user 1's tag list is sorted
descending and the fixture tag of user 1 is a member. -/
theorem c9_witness :
    List.Pairwise (fun a b => b.name ≤ a.name) (attrQueryset sampleDB.tags 1) ∧
    ((⟨1, "Vegan", 1⟩ : RecipeAttr) ∈ attrQueryset sampleDB.tags 1) := by
  have h := (c9_attr_lists_name_descending sampleDB 1 none).2.2 sampleDB.tags
  exact ⟨h.1, (h.2 ⟨1, "Vegan", 1⟩).mpr (by decide)⟩

/-- Claim C10: `perform_create` stamps the authenticated requester as the
owner of every created Tag/Ingredient: the outcome is identical whatever
owner value the payload carries, a row the create answers with is owned by
the requester, and any row in the store after the create was either there
before or is owned by the requester. -/
theorem c10_attr_create_owner_stamped (xs : List RecipeAttr) (uid : Nat)
    (nm : String) (po po2 : Option Nat) :
    performCreate xs uid ⟨nm, po⟩ = performCreate xs uid ⟨nm, po2⟩ ∧
    (∀ row, (performCreate xs uid ⟨nm, po⟩).2 = .ok row → row.user = uid) ∧
    (∀ row, row ∈ (performCreate xs uid ⟨nm, po⟩).1 → row ∈ xs ∨ row.user = uid) := by
  by_cases h : blank nm
  · refine ⟨by simp [performCreate, attrSerializerSave, h], ?_, ?_⟩
    · intro row hrow
      simp [performCreate, attrSerializerSave, h] at hrow
    · intro row hrow
      simp only [performCreate, attrSerializerSave, h, if_pos] at hrow
      exact Or.inl hrow
  · refine ⟨by simp [performCreate, attrSerializerSave, h], ?_, ?_⟩
    · intro row hrow
      simp [performCreate, attrSerializerSave, h] at hrow
      rw [← hrow]
    · intro row hrow
      simp [performCreate, attrSerializerSave, h] at hrow
      rcases hrow with hrow | hrow
      · exact Or.inl hrow
      · rw [hrow]
        exact Or.inr rfl

/-- Witness for C10: creating the tag of `test_create_tag_successfull` while
authenticated as user 7 yields a row owned by user 7 even though the payload
claims owner 9. -/
theorem c10_witness :
    (∀ row, (performCreate [] 7 ⟨"test tag", some 9⟩).2 = .ok row → row.user = 7) ∧
    performCreate [] 7 ⟨"test tag", some 9⟩ = performCreate [] 7 ⟨"test tag", none⟩ :=
  ⟨(c10_attr_create_owner_stamped [] 7 "test tag" (some 9) none).2.1,
   (c10_attr_create_owner_stamped [] 7 "test tag" (some 9) none).1⟩

/-- Claim C5: a full update (PUT) with a valid payload replaces the recipe
and clears the tag/ingredient associations absent from the payload; a
partial update (PATCH) leaves the row — associations included — unchanged
when fields are omitted, and fully replaces (does not merge) an association
list that is present. -/
theorem c5_update_replace_semantics (r : Recipe) (t : String) (tm : Nat) (pr : Int)
    (ts is : List Nat) (h : blank t = false) :
    serializerUpdate r ⟨some t, some tm, some pr, none, none⟩ false =
      .ok { r with title := t, time_minutes := tm, price := pr,
                   tags := [], ingredients := [] } ∧
    serializerUpdate r ⟨none, none, none, none, none⟩ true = .ok r ∧
    serializerUpdate r ⟨none, none, none, some ts, some is⟩ true =
      .ok { r with tags := ts, ingredients := is } ∧
    serializerUpdate r ⟨none, none, none, some ts, none⟩ true =
      .ok { r with tags := ts } := by
  simp [serializerUpdate, h]

/-- Witness for C5 on the fixture of the update tests: a PUT without the
associations clears them; a PATCH carrying only `tags := [9]` replaces the
single prior tag and touches nothing else. -/
theorem c5_witness :
    blank "new title" = false ∧
    serializerUpdate ⟨1, "Sample recipe", 10, 5, 1, [2], [3], none⟩
        ⟨some "new title", some 30, some 30, none, none⟩ false =
      .ok ⟨1, "new title", 30, 30, 1, [], [], none⟩ ∧
    serializerUpdate ⟨1, "Sample recipe", 10, 5, 1, [2], [3], none⟩
        ⟨none, none, none, some [9], none⟩ true =
      .ok ⟨1, "Sample recipe", 10, 5, 1, [9], [3], none⟩ := by
  have h := c5_update_replace_semantics ⟨1, "Sample recipe", 10, 5, 1, [2], [3], none⟩
    "new title" 30 30 [9] [3] (by decide)
  exact ⟨by decide, h.1, h.2.2.2⟩

/-- Claim C6, counterexample: a successful PATCH (action `partial_update`)
or PUT (action `update`) does not answer with the detail representation:
`get_serializer_class` selects the detail serializer for the `retrieve`
action only, so update responses are rendered by the plain
`RecipeSerializer`, which carries tags/ingredients as id lists. -/
theorem c6_counterexample :
    get_serializer_class "partial_update" = SerializerClass.recipeSerializer ∧
    get_serializer_class "update" = SerializerClass.recipeSerializer ∧
    serializerShape (get_serializer_class "partial_update") ≠ RecipeShape.nestedDetailShape ∧
    serializerShape (get_serializer_class "update") ≠ RecipeShape.nestedDetailShape := by
  decide

/-- Claim C6 as amended: list responses use the id-list representation,
retrieve uses the nested detail representation, and a successful PATCH or
PUT answers with the updated row in the id-list (list) representation, not
the detail one. -/
theorem c6_amended :
    get_serializer_class "list" = SerializerClass.recipeSerializer ∧
    serializerShape (get_serializer_class "list") = RecipeShape.idListShape ∧
    get_serializer_class "retrieve" = SerializerClass.recipeDetailSerializer ∧
    serializerShape (get_serializer_class "retrieve") = RecipeShape.nestedDetailShape ∧
    get_serializer_class "update" = SerializerClass.recipeSerializer ∧
    get_serializer_class "partial_update" = SerializerClass.recipeSerializer ∧
    serializerShape (get_serializer_class "update") = RecipeShape.idListShape ∧
    serializerShape (get_serializer_class "partial_update") = RecipeShape.idListShape := by
  decide

/-- Claim C2 fails on the code: with the fixture of
`test_retrieve_tags_assigned_to_recipes` and
`test_retrieve_ingredients_assigned_to_recipes`, tag 2 ("Lunch") and
ingredient 2 ("Banana") are linked to no recipe, yet a list request carrying
`assigned_only=1` still returns them — `get_queryset` (views.py:17-19) never
reads the flag. -/
theorem c2_assigned_only_ignored :
    (∀ r ∈ assignedDB.recipes, 2 ∉ r.tags ∧ 2 ∉ r.ingredients) ∧
    dispatch assignedDB (some 1) (.tagList (some "1")) =
      (assignedDB, .ok (.attrList [⟨2, "Lunch", 1⟩, ⟨1, "Breakfast", 1⟩])) ∧
    dispatch assignedDB (some 1) (.ingredientList (some "1")) =
      (assignedDB, .ok (.attrList [⟨2, "Banana", 1⟩, ⟨1, "Apple", 1⟩])) := by
  decide

/-- Claim C3 fails on the code: with the fixture of
`test_filter_recipes_by_tag` / `test_filtering_recipes_by_ingredients`,
recipe 3 carries neither of the requested tag ids (nor ingredient ids), yet
a list request carrying `tags=4,5` (or `ingredients=6,7`) still returns all
three recipes — `get_queryset` (views.py:45-47) never reads the
parameters. -/
theorem c3_recipe_filters_ignored :
    dispatch filterDB (some 1) (.recipeList (some "4,5") none) =
      (filterDB, .ok (.recipeList filterDB.recipes)) ∧
    dispatch filterDB (some 1) (.recipeList none (some "6,7")) =
      (filterDB, .ok (.recipeList filterDB.recipes)) ∧
    ((⟨3, "recipe3", 10, 5, 1, [], [], none⟩ : Recipe) ∈ filterDB.recipes ∧
      (⟨3, "recipe3", 10, 5, 1, [], [], none⟩ : Recipe).tags = [] ∧
      (⟨3, "recipe3", 10, 5, 1, [], [], none⟩ : Recipe).ingredients = []) := by
  decide

/-- Claim C4 fails on the code: `RecipeViewSet` (views.py:38-54) declares no
extra action, so neither an `upload_image` action nor the
`recipe-upload-image` route exists, while the repository's own tests
(`test_upload_image`, `test_upload_image_bad_request`) reverse exactly that
route and post image payloads to it. -/
theorem c4_no_upload_image_action :
    "upload_image" ∉ recipeViewSetActions ∧
    "recipe-upload-image" ∉ recipeRouteNames := by
  decide

/-- Claim C8 fails on the code: a recipe list request whose `tags` (or
`ingredients`) parameter holds a non-integer token is not rejected — the
parameter is never parsed, the request succeeds and silently returns all of
the caller's recipes. -/
theorem c8_malformed_filter_not_rejected :
    dispatch filterDB (some 1) (.recipeList (some "abc") none) =
      (filterDB, .ok (.recipeList filterDB.recipes)) ∧
    (dispatch filterDB (some 1) (.recipeList (some "abc") none)).2 ≠
      Except.error ApiError.validationError ∧
    (dispatch filterDB (some 1) (.recipeList none (some "1,x"))).2 ≠
      Except.error ApiError.validationError := by
  decide

/-- Claim C8 as amended: the recipe list endpoint ignores the `tags` and
`ingredients` parameters entirely — malformed tokens and well-formed id
lists alike — and always answers with all of the caller's recipes. -/
theorem c8_amended_filters_ignored (db : DB) (u : Nat) (ts is : Option String) :
    dispatch db (some u) (.recipeList ts is) =
      (db, .ok (.recipeList (recipeGetQueryset db u))) := rfl
